import Mathlib

/-!
Shallow embedding of the prefect client core (src/prefect/utilities/serialization.py
and src/prefect/client/client.py): versioned-schema registry and resolution, the
VersionedSchema dump/load pipeline, field adapters (base64 Bytes field,
FunctionReference), the GraphQL envelope unwrapping, the typed client operations
built on it, and the authenticated request / 401-refresh-retry state machine.

Python dicts are modelled as association lists with unique keys and last-wins
insertion; Python exceptions are modelled with `Except` over an explicit error
type; bytes are lists of naturals below 256.
-/

namespace Prefect

/-- A Python dict with string keys, modelled as an association list.
Lookup takes the first matching binding; the insertion helpers below keep keys
unique, matching dict semantics. -/
abbrev PyDict (α : Type) : Type := List (String × α)

/-- `d.get(k)` / `d[k]`: first binding for `k`, if any. -/
def dictGet {α : Type} (d : PyDict α) (k : String) : Option α :=
  match d with
  | [] => none
  | (k', v) :: rest => if k' = k then some v else dictGet rest k

/-- `d.pop(k, None)`'s effect on the dict: every binding of `k` is removed. -/
def dictPop {α : Type} (d : PyDict α) (k : String) : PyDict α :=
  d.filter (fun kv => kv.1 ≠ k)

/-- `d.setdefault(k, v)`: inserts `k ↦ v` only when `k` is absent. -/
def dictSetdefault {α : Type} (d : PyDict α) (k : String) (v : α) : PyDict α :=
  match dictGet d k with
  | some _ => d
  | none => d ++ [(k, v)]

/-- `d[k] = v`: removes any previous binding of `k`, then appends `k ↦ v`
(last assignment wins, as for Python dicts). -/
def dictInsert {α : Type} (d : PyDict α) (k : String) (v : α) : PyDict α :=
  dictPop d k ++ [(k, v)]

/-- Keys of a dict, in iteration order. -/
def dictKeys {α : Type} (d : PyDict α) : List String := d.map Prod.fst

/-- `d.values()`. -/
def dictValues {α : Type} (d : PyDict α) : List α := d.map Prod.snd

/-- Python string comparison `a <= b`: lexicographic by Unicode code point. -/
def pyStrLeChars : List Char → List Char → Bool
  | [], _ => true
  | _ :: _, [] => false
  | a :: as, b :: bs =>
    if a.toNat < b.toNat then true
    else if b.toNat < a.toNat then false
    else pyStrLeChars as bs

/-- Python `a <= b` on strings. -/
def pyStrLe (a b : String) : Bool := pyStrLeChars a.toList b.toList

/-- The binary step of Python `max` on strings: keeps the later value on
ties. -/
def strMax (a b : String) : String := if pyStrLe a b then b else a

/-- Python `max` over a non-empty list (`max(dict)` iterates over the keys);
`none` on the empty list, where Python raises `ValueError`. -/
def pyMax (l : List String) : Option String :=
  match l with
  | [] => none
  | x :: xs => some (xs.foldl strMax x)

/-! ## Version registry and resolution (serialization.py lines 24-125) -/

/-- Errors raised by the serialization framework.  The source raises plain
`ValueError`s; the two resolution failures are distinguished here by their
messages, mirroring the spec's `UnregisteredSchemaError` / `NoMatchingVersionError`
taxonomy. -/
inductive SerErr : Type
  | unregisteredSchema
  | noMatchingVersion (version : String)
  | validationError (msg : String)
  | attributeError
deriving DecidableEq, Repr

/-- A registered schema implementation is identified abstractly by a number
(the Python class object). -/
abbrev SchemaId : Type := Nat

/-- The process-wide `VERSIONS` registry: qualified schema name ↦
(version tag ↦ schema). -/
abbrev VersionsRegistry : Type := PyDict (PyDict SchemaId)

/-- The version argument passed to `get_versioned_schema`: either the
`MAX_VERSION` sentinel object (the source compares with `is`, so only the
sentinel itself — e.g. the default of `data.get("__version__", MAX_VERSION)` —
takes this branch) or a plain tag string. -/
inductive VersionArg : Type
  | maxVersion
  | tag (v : String)
deriving DecidableEq, Repr

/-- `get_versioned_schema(schema, version)` (serialization.py lines 96-125):
unregistered name fails; the `MAX_VERSION` sentinel selects the schema at the
lexicographically maximal registered tag; otherwise the schema at the maximal
registered tag `≤ version` is selected, failing when no tag qualifies. -/
def get_versioned_schema (versions : VersionsRegistry) (name : String)
    (version : VersionArg) : Except SerErr SchemaId :=
  match dictGet versions name with
  | none => .error .unregisteredSchema
  | some tagmap =>
    match version with
    | .maxVersion =>
      match pyMax (dictKeys tagmap) with
      | none => .error .unregisteredSchema
      | some k =>
        match dictGet tagmap k with
        | some s => .ok s
        | none => .error .unregisteredSchema
    | .tag v =>
      let matching := (dictKeys tagmap).filter (fun t => pyStrLe t v)
      match pyMax matching with
      | none => .error (.noMatchingVersion v)
      | some k =>
        match dictGet tagmap k with
        | some s => .ok s
        | none => .error (.noMatchingVersion v)

/-- `version(v)` decorator registration effect (serialization.py line 90):
`VERSIONS.setdefault(name, {})[version] = cls`, i.e. last registration wins. -/
def registerVersion (versions : VersionsRegistry) (name : String)
    (tag : String) (schema : SchemaId) : VersionsRegistry :=
  match dictGet versions name with
  | some tagmap => dictInsert versions name (dictInsert tagmap tag schema)
  | none => dictInsert versions name (dictInsert [] tag schema)

/-! ## VersionedSchema load/dump pipeline (serialization.py lines 135-255)

Field-level serialization/deserialization (the marshmallow machinery plus the
`create_object` post-load hook) is abstracted as a function parameter; the
pipeline around it — the `_remove_version` pre-load hook, the `_add_version`
post-dump hook and the version-resolution dispatch in `load` — is modelled
from the source.  In-place mutation of the caller's dict is made explicit:
`load` returns the result together with the state of the caller's dict after
the call. -/

/-- A serialized payload: field name ↦ value.  Values are abstracted as
strings (the `__version__` field always holds a string). -/
abbrev Payload : Type := PyDict String

namespace VersionedSchema

/-- `_remove_version` pre-load hook (serialization.py lines 204-216):
`data.pop("__version__", None)`. -/
def remove_version (data : Payload) : Payload :=
  dictPop data "__version__"

/-- `_add_version` post-dump hook (serialization.py lines 218-230):
`data.setdefault("__version__", prefect.__version__)`. -/
def add_version (currentVersion : String) (data : Payload) : Payload :=
  dictSetdefault data "__version__" currentVersion

/-- `Schema.dump` on a VersionedSchema: field-level serialization followed by
the `_add_version` post-dump hook. -/
def dump {α : Type} (fieldDump : α → Payload) (currentVersion : String)
    (o : α) : Payload :=
  add_version currentVersion (fieldDump o)

/-- `data.get("__version__", MAX_VERSION)` (serialization.py line 190): the
declared version tag if present, otherwise the `MAX_VERSION` sentinel (which
`get_versioned_schema` detects by identity). -/
def versionArgOf (data : Payload) : VersionArg :=
  match dictGet data "__version__" with
  | some v => .tag v
  | none => .maxVersion

/-- `marshmallow.Schema.load` as invoked through `super().load`: the
`_remove_version` pre-load hook runs on the caller's dict in place, then
field-level deserialization (and the post-load hook) runs on the stripped
dict.  Returns the result and the caller's dict as left after the call. -/
def superLoad {α : Type} (fieldLoad : Payload → Except SerErr α)
    (data : Payload) : Except SerErr α × Payload :=
  (fieldLoad (remove_version data), remove_version data)

/-- `VersionedSchema.load` (serialization.py lines 165-202) for a dict
payload: when `check_version` is set, resolve the schema for the payload's
declared version (a resolution failure propagates before any hook touches the
dict); the source then compares the resolved class against the schema
instance with `is not` — a class is never the instance, so it always
reinstantiates the resolved class and delegates with `check_version=False`,
which lands in `super().load` on the same dict.  `fieldLoadOf` gives each
registered schema's field-level deserialization. -/
def load {α : Type} (versions : VersionsRegistry) (selfName : String)
    (selfId : SchemaId) (fieldLoadOf : SchemaId → Payload → Except SerErr α)
    (data : Payload) (check_version : Bool) :
    Except SerErr α × Payload :=
  if check_version then
    match get_versioned_schema versions selfName (versionArgOf data) with
    | .error e => (.error e, data)
    | .ok schema => superLoad (fieldLoadOf schema) data
  else superLoad (fieldLoadOf selfId) data

end VersionedSchema

/-! ## Base64 and the Bytes field (serialization.py lines 326-345)

`Bytes._serialize` calls `base64.b64encode(value).decode("utf-8")` and
`Bytes._deserialize` calls `base64.b64decode(value)`; the Python `base64`
module (standard RFC 4648 alphabet and padding) is an external collaborator
and is modelled here directly.  Bytes are naturals below 256; text is a list
of characters. -/

/-- The base64 alphabet: the character encoding sextet `n` (`n < 64`). -/
def sextetChar (n : Nat) : Char :=
  if n < 26 then Char.ofNat (65 + n)
  else if n < 52 then Char.ofNat (97 + (n - 26))
  else if n < 62 then Char.ofNat (48 + (n - 52))
  else if n = 62 then '+'
  else '/'

/-- The sextet encoded by an alphabet character, `none` off the alphabet. -/
def sextetVal (c : Char) : Option Nat :=
  let n := c.toNat
  if 65 ≤ n ∧ n ≤ 90 then some (n - 65)
  else if 97 ≤ n ∧ n ≤ 122 then some (n - 97 + 26)
  else if 48 ≤ n ∧ n ≤ 57 then some (n - 48 + 52)
  else if n = 43 then some 62
  else if n = 47 then some 63
  else none

/-- `base64.b64encode`: three bytes become four alphabet characters; a final
group of one or two bytes is padded with `=`. -/
def b64encode : List Nat → List Char
  | a :: b :: c :: rest =>
      sextetChar (a / 4) :: sextetChar ((a % 4) * 16 + b / 16) ::
        sextetChar ((b % 16) * 4 + c / 64) :: sextetChar (c % 64) ::
        b64encode rest
  | [a, b] =>
      [sextetChar (a / 4), sextetChar ((a % 4) * 16 + b / 16),
        sextetChar ((b % 16) * 4), '=']
  | [a] => [sextetChar (a / 4), sextetChar ((a % 4) * 16), '=', '=']
  | [] => []

/-- `base64.b64decode` on well-formed input: four characters decode to three
bytes, with `=` padding closing the stream after one or two bytes; `none`
models the `binascii.Error` raised on malformed input. -/
def b64decode : List Char → Option (List Nat)
  | [] => some []
  | c1 :: c2 :: c3 :: c4 :: rest =>
    match sextetVal c1, sextetVal c2 with
    | some s1, some s2 =>
      if c3 = '=' ∧ c4 = '=' ∧ rest = [] then
        some [s1 * 4 + s2 / 16]
      else
        match sextetVal c3 with
        | some s3 =>
          if c4 = '=' ∧ rest = [] then
            some [s1 * 4 + s2 / 16, (s2 % 16) * 16 + s3 / 4]
          else
            match sextetVal c4, b64decode rest with
            | some s4, some ds =>
              some ((s1 * 4 + s2 / 16) :: ((s2 % 16) * 16 + s3 / 4) ::
                ((s3 % 4) * 64 + s4) :: ds)
            | _, _ => none
        | none => none
    | _, _ => none
  | _ => none

namespace Bytes

/-- `Bytes._serialize` (serialization.py lines 339-341): a non-None value is
base64-encoded to text; None falls through (Python's implicit None). -/
def serialize (value : Option (List Nat)) : Option (List Char) :=
  match value with
  | some bs => some (b64encode bs)
  | none => none

/-- `Bytes._deserialize` (serialization.py lines 343-345): a non-None value is
base64-decoded to bytes (malformed base64 raising `binascii.Error`); None
falls through. -/
def deserialize (value : Option (List Char)) : Except SerErr (Option (List Nat)) :=
  match value with
  | none => .ok none
  | some s =>
    match b64decode s with
    | some bs => .ok (some bs)
    | none => .error (.validationError "Invalid base64-encoded string")

end Bytes

/-! ## FunctionReference field (serialization.py lines 368-399) -/

/-- A Python function object: object identity (`fid`) plus the qualified name
`to_qualified_name` computes from `__module__` and `__qualname__`. -/
structure PyFunc where
  fid : Nat
  qualified_name : String
deriving DecidableEq, Repr

/-- `to_qualified_name` (serialization.py lines 28-39) applied to a function. -/
def to_qualified_name (f : PyFunc) : String := f.qualified_name

/-- The state of a `FunctionReference` field: the allow-list dict built in
`__init__`, the `reject_invalid` flag and marshmallow's `allow_none` flag. -/
structure FunctionReference where
  valid_functions : PyDict PyFunc
  reject_invalid : Bool
  allow_none : Bool
deriving DecidableEq, Repr

/-- `FunctionReference.__init__` (serialization.py lines 382-385):
`self.valid_functions = {to_qualified_name(f): f for f in valid_functions}`
(later duplicates of a qualified name overwrite earlier ones). -/
def mkFunctionReference (valid_functions : List PyFunc)
    (reject_invalid : Bool) (allow_none : Bool) : FunctionReference :=
  ⟨valid_functions.foldl (fun d f => dictInsert d (to_qualified_name f) f) [],
    reject_invalid, allow_none⟩

namespace FunctionReference

/-- `value not in self.valid_functions.values()` with `value : Option PyFunc`
(`none` is Python's `None`, never among the function values). -/
def notInValues (fr : FunctionReference) (value : Option PyFunc) : Bool :=
  match value with
  | some f => decide (f ∉ dictValues fr.valid_functions)
  | none => true

/-- `value not in self.valid_functions` (key membership) with
`value : Option String`. -/
def notInKeys (fr : FunctionReference) (value : Option String) : Bool :=
  match value with
  | some s => decide (dictGet fr.valid_functions s = none)
  | none => true

/-- `FunctionReference._serialize` (serialization.py lines 387-392): None
passes through when allowed; a value off the allow-list raises only when
`reject_invalid` is set; otherwise the value's qualified name is returned
(`to_qualified_name(None)` raising `AttributeError`). -/
def serialize (fr : FunctionReference) (value : Option PyFunc) :
    Except SerErr (Option String) :=
  if value.isNone && fr.allow_none then .ok none
  else if notInValues fr value && fr.reject_invalid then
    .error (.validationError "Invalid function reference")
  else
    match value with
    | some f => .ok (some (to_qualified_name f))
    | none => .error .attributeError

/-- `FunctionReference._deserialize` (serialization.py lines 394-399): None
passes through when allowed; a name off the allow-list raises only when
`reject_invalid` is set; otherwise `self.valid_functions.get(value, value)`
returns the registered function for a known name and the unresolved string
itself for an unknown one. -/
def deserialize (fr : FunctionReference) (value : Option String) :
    Except SerErr (Option (PyFunc ⊕ String)) :=
  if value.isNone && fr.allow_none then .ok none
  else if notInKeys fr value && fr.reject_invalid then
    .error (.validationError "Invalid function reference")
  else
    match value with
    | some s =>
      match dictGet fr.valid_functions s with
      | some f => .ok (some (Sum.inl f))
      | none => .ok (some (Sum.inr s))
    | none => .ok none

end FunctionReference

/-! ## Client (client.py): GraphQL envelope, typed operations, transport

JSON values as parsed from response bodies.  The `as_nested_dict(·,
GraphQLResult)` conversion wraps mappings in attribute-accessible `DotDict`s
without changing their content, so it is unobservable here; attribute access
on a converted value is `getAttr` below. -/

inductive JVal : Type
  | null
  | bool (b : Bool)
  | num (n : Int)
  | str (s : String)
  | arr (elems : List JVal)
  | obj (fields : List (String × JVal))

/-- Errors surfaced by the client. -/
inductive ClientErr : Type
  | clientError (detail : JVal)
  | authorizationError (msg : String)
  | httpError (status : Nat)
  | valueError (msg : String)
  | typeError
  | attributeError

/-- Python truthiness of a JSON value (`if result.xyz.error:`). -/
def JVal.truthy : JVal → Bool
  | .null => false
  | .bool b => b
  | .num n => decide (n ≠ 0)
  | .str s => decide (s ≠ "")
  | .arr l => !l.isEmpty
  | .obj l => !l.isEmpty

/-- Attribute access on a `GraphQLResult` (`DotDict`): a present key gives its
value; a missing key — or an attribute read on a non-mapping such as `None` —
raises `AttributeError`. -/
def getAttr (v : JVal) (k : String) : Except ClientErr JVal :=
  match v with
  | .obj fields =>
    match dictGet fields k with
    | some x => .ok x
    | none => .error .attributeError
  | _ => .error .attributeError

namespace Client

/-- `Client.graphql` (client.py lines 136-164) applied to the parsed response
envelope: an `errors` key (whatever its value) raises `ClientError` carrying
it verbatim; otherwise the converted envelope's `data` attribute is returned
(`AttributeError` when the envelope has no `data` key). -/
def graphql (result : PyDict JVal) : Except ClientErr JVal :=
  match dictGet result "errors" with
  | some errs => .error (.clientError errs)
  | none =>
    match dictGet result "data" with
    | some d => .ok d
    | none => .error .attributeError

/-- `Client.update_flow_run_heartbeat` (client.py lines 439-456): posts the
heartbeat mutation and discards the result; only `graphql` itself can raise. -/
def update_flow_run_heartbeat (result : PyDict JVal) : Except ClientErr Unit :=
  match graphql result with
  | .error e => .error e
  | .ok _ => .ok ()

/-- `Client.update_task_run_heartbeat` (client.py lines 458-475): same shape
as the flow-run heartbeat, for the task-run mutation. -/
def update_task_run_heartbeat (result : PyDict JVal) : Except ClientErr Unit :=
  match graphql result with
  | .error e => .error e
  | .ok _ => .ok ()

end Client

/-- `TaskRunInfoResult` (client.py lines 27-35); the deserialized `State` is
an external domain object of abstract type `σ`. -/
structure TaskRunInfoResult (σ : Type) where
  id : JVal
  task_id : JVal
  version : JVal
  state : σ

/-- `FlowRunInfoResult` (client.py lines 37-46); the parsed
`scheduled_start_time` (an external `pendulum` datetime) has abstract type
`τ`. -/
structure FlowRunInfoResult (σ τ : Type) where
  parameters : JVal
  version : JVal
  scheduled_start_time : τ
  state : σ
  task_runs : List (TaskRunInfoResult σ)

namespace Client

/-- Reformatting of one entry of `result.task_runs` in `get_flow_run_info`
(client.py lines 429-434): `tr.state = State.deserialize(tr.pop(
"serialized_state"))` followed by `TaskRunInfoResult(**tr)`; the external
`State.deserialize` is the abstract `deserializeState`. -/
def flowRunTaskEntry {σ : Type} (deserializeState : JVal → σ) (tr : JVal) :
    Except ClientErr (TaskRunInfoResult σ) :=
  match getAttr tr "serialized_state" with
  | .error e => .error e
  | .ok st =>
    match getAttr tr "id", getAttr tr "task_id", getAttr tr "version" with
    | .ok i, .ok tid, .ok ver => .ok ⟨i, tid, ver, deserializeState st⟩
    | _, _, _ => .error .attributeError

/-- `Client.get_flow_run_info` (client.py lines 386-437) applied to the
parsed response envelope: runs the query through `graphql`, reads
`flow_run_by_pk`, and rejects a `None` result with a `ClientError` naming the
flow-run id; otherwise reshapes the result (datetime parsing and `State`
deserialization delegated to the abstract external collaborators `parseTime`
and `deserializeState`). -/
def get_flow_run_info {σ τ : Type} (flow_run_id : String)
    (deserializeState : JVal → σ) (parseTime : JVal → τ)
    (result : PyDict JVal) : Except ClientErr (FlowRunInfoResult σ τ) :=
  match graphql result with
  | .error e => .error e
  | .ok data =>
    match getAttr data "flow_run_by_pk" with
    | .error e => .error e
    | .ok fr =>
      match fr with
      | .null =>
        .error (.clientError
          (.str ("Flow run ID not found: \"" ++ flow_run_id ++ "\"")))
      | _ =>
        match getAttr fr "scheduled_start_time" with
        | .error e => .error e
        | .ok sst =>
          match getAttr fr "serialized_state" with
          | .error e => .error e
          | .ok st =>
            match getAttr fr "task_runs" with
            | .error e => .error e
            | .ok trs =>
              match trs with
              | .arr entries =>
                match entries.mapM (flowRunTaskEntry deserializeState) with
                | .error e => .error e
                | .ok task_runs =>
                  match getAttr fr "parameters", getAttr fr "version" with
                  | .ok ps, .ok ver =>
                    .ok ⟨ps, ver, parseTime sst, deserializeState st, task_runs⟩
                  | _, _ => .error .attributeError
              | _ => .error .typeError

/-- `Client.get_task_run_info` (client.py lines 513-555) applied to the
parsed response envelope: runs the `getOrCreateTaskRun` mutation through
`graphql`, raises `ClientError` carrying the server's `error` field when that
field is truthy, and otherwise reads the task run's `serialized_state`, `id`
and `version` (an attribute read on a `None` mutation result or task run
raises `AttributeError`). -/
def get_task_run_info {σ : Type} (task_id : String)
    (deserializeState : JVal → σ) (result : PyDict JVal) :
    Except ClientErr (TaskRunInfoResult σ) :=
  match graphql result with
  | .error e => .error e
  | .ok data =>
    match getAttr data "getOrCreateTaskRun" with
    | .error e => .error e
    | .ok gct =>
      match getAttr gct "error" with
      | .error e => .error e
      | .ok errVal =>
        if errVal.truthy then .error (.clientError errVal)
        else
          match getAttr gct "task_run" with
          | .error e => .error e
          | .ok tr =>
            match getAttr tr "serialized_state" with
            | .error e => .error e
            | .ok st =>
              match getAttr tr "id", getAttr tr "version" with
              | .ok i, .ok ver =>
                .ok ⟨i, .str task_id, ver, deserializeState st⟩
              | _, _ => .error .attributeError

end Client

/-! ## Authenticated transport and the 401 retry machine (client.py 166-294) -/

/-- The client's `self.token` attribute: it may be missing entirely (after
`logout` runs `del self.token`), present but `None`, or hold a token
string. -/
inductive TokenAttr : Type
  | absent
  | set (token : Option String)
deriving DecidableEq, Repr

/-- The client's authentication state: the in-memory token attribute and the
content of the on-disk token file `~/.prefect/.credentials/auth_token`. -/
structure ClientState where
  token : TokenAttr
  diskToken : Option String
deriving DecidableEq, Repr

/-- One HTTP response from the transport stub. -/
structure HttpResp where
  status : Nat
  body : String
deriving DecidableEq, Repr

/-- `response.raise_for_status()`: 4xx and 5xx statuses raise
`requests.HTTPError` carrying the status; anything else returns the
response. -/
def raise_for_status (r : HttpResp) : Except ClientErr HttpResp :=
  if 400 ≤ r.status ∧ r.status < 600 then .error (.httpError r.status)
  else .ok r

namespace Client

/-- `Client.logout` (client.py lines 273-280): removes the on-disk token file
if present and runs `del self.token`, which removes the attribute entirely —
or raises `AttributeError` if it was already gone. -/
def logout (s : ClientState) : Except ClientErr ClientState :=
  match s.token with
  | .absent => .error .attributeError
  | .set _ => .ok { token := .absent, diskToken := none }

/-- The inner `request_fn` of `Client._request` (client.py lines 202-216):
issues the HTTP call for the given method (a method outside GET/POST/DELETE
raises `ValueError`, which `requests.HTTPError` handling does not catch) and
runs `raise_for_status`.  `stub n` is the transport's response to the n-th
issue of the identical request. -/
def request_fn (method : String) (stub : Nat → HttpResp) (attempt : Nat) :
    Except ClientErr HttpResp :=
  if method = "GET" ∨ method = "POST" ∨ method = "DELETE" then
    raise_for_status (stub attempt)
  else .error (.valueError ("Invalid method: " ++ method))

/-- The observable outcome of one `Client._request` call: its result, how
many times the inner `request_fn` was invoked, how many times
`refresh_token` ran, and the in-memory token afterwards. -/
structure RequestTrace where
  result : Except ClientErr HttpResp
  attempts : Nat
  refreshes : Nat
  finalToken : TokenAttr

/-- `Client._request` (client.py lines 166-225): reading a deleted token
attribute raises `AttributeError`; a `None` token raises `AuthorizationError`
before any network call; otherwise the request is issued once, and exactly on
a 401 status `refresh_token` runs (installing whatever token the refresh
endpoint returns, `refreshResp`) and the identical request is issued a second
time, whose outcome — success, a second 401, or any other error — is final.
Only `requests.HTTPError` is caught, and only a 401 status triggers the
refresh-and-retry. -/
def _request (token : TokenAttr) (method : String) (stub : Nat → HttpResp)
    (refreshResp : Option String) : RequestTrace :=
  match token with
  | .absent => ⟨.error .attributeError, 0, 0, .absent⟩
  | .set none =>
    ⟨.error (.authorizationError "Call Client.login() to set the client token."),
      0, 0, .set none⟩
  | .set (some t) =>
    match request_fn method stub 0 with
    | .ok r => ⟨.ok r, 1, 0, .set (some t)⟩
    | .error e =>
      match e with
      | .httpError code =>
        if code = 401 then ⟨request_fn method stub 1, 2, 1, .set refreshResp⟩
        else ⟨.error e, 1, 0, .set (some t)⟩
      | _ => ⟨.error e, 1, 0, .set (some t)⟩

end Client

/-! ## Helper lemmas about dict operations -/

theorem dictGet_nil {α : Type} (k : String) : dictGet ([] : PyDict α) k = none :=
  rfl

theorem dictGet_cons {α : Type} (k' : String) (v' : α) (rest : PyDict α)
    (k : String) :
    dictGet ((k', v') :: rest) k = if k' = k then some v' else dictGet rest k :=
  rfl

theorem dictGet_append_single_of_none {α : Type} (d : PyDict α) (k : String)
    (v : α) (h : dictGet d k = none) : dictGet (d ++ [(k, v)]) k = some v := by
  induction d with
  | nil => simp [dictGet]
  | cons kv rest ih =>
    obtain ⟨k', v'⟩ := kv
    by_cases hk : k' = k
    · rw [dictGet_cons, if_pos hk] at h
      exact absurd h (by simp)
    · rw [dictGet_cons, if_neg hk] at h
      rw [List.cons_append, dictGet_cons, if_neg hk]
      exact ih h

theorem dictGet_dictPop {α : Type} (d : PyDict α) (k : String) :
    dictGet (dictPop d k) k = none := by
  induction d with
  | nil => rfl
  | cons kv rest ih =>
    obtain ⟨k', v'⟩ := kv
    by_cases hk : k' = k
    · simpa [dictPop, List.filter_cons, hk] using ih
    · simpa [dictPop, List.filter_cons, hk, dictGet_cons] using ih

theorem dictGet_dictSetdefault_isSome {α : Type} (d : PyDict α) (k : String)
    (v : α) : (dictGet (dictSetdefault d k v) k).isSome := by
  unfold dictSetdefault
  cases h : dictGet d k with
  | some w => simp [h]
  | none => simp [dictGet_append_single_of_none d k v h]

end Prefect

/-! ## Claim theorems -/

open Prefect

/-- C1: with version tags {"1","2","4"} registered for a schema identity,
resolution at declared version "3" selects the schema at tag "2", at "5"
selects "4" (the maximal registered tag ordinally at most the declared one),
at "0" fails with the no-matching-version error, and the `MAX_VERSION`
sentinel selects the lexicographically maximal tag "4". -/
theorem c1_version_resolution (s1 s2 s4 : SchemaId) :
    get_versioned_schema [("S", [("1", s1), ("2", s2), ("4", s4)])] "S"
        (.tag "3") = .ok s2 ∧
    get_versioned_schema [("S", [("1", s1), ("2", s2), ("4", s4)])] "S"
        (.tag "5") = .ok s4 ∧
    get_versioned_schema [("S", [("1", s1), ("2", s2), ("4", s4)])] "S"
        (.tag "0") = .error (.noMatchingVersion "0") ∧
    get_versioned_schema [("S", [("1", s1), ("2", s2), ("4", s4)])] "S"
        .maxVersion = .ok s4 := by
  refine ⟨?_, ?_, ?_, ?_⟩ <;> rfl

/-- C3: `dump` sets the reserved `__version__` field whenever the field-level
output lacks it — so every dumped payload is self-describing — and `load`
strips `__version__` from the payload before field-level deserialization
runs, so field-level validation never sees it. -/
theorem c3_version_field_invariant {α β : Type} (fieldDump : α → Payload)
    (ver : String) (o : α) (fieldLoad : Payload → Except SerErr β)
    (d : Payload) (h : dictGet (fieldDump o) "__version__" = none) :
    dictGet (VersionedSchema.dump fieldDump ver o) "__version__" = some ver ∧
    (∀ o' : α,
      (dictGet (VersionedSchema.dump fieldDump ver o') "__version__").isSome) ∧
    (VersionedSchema.superLoad fieldLoad d).1 =
      fieldLoad (VersionedSchema.remove_version d) ∧
    dictGet (VersionedSchema.remove_version d) "__version__" = none := by
  refine ⟨?_, fun o' => ?_, rfl, ?_⟩
  · unfold VersionedSchema.dump VersionedSchema.add_version dictSetdefault
    rw [h]
    exact dictGet_append_single_of_none _ _ _ h
  · exact dictGet_dictSetdefault_isSome _ _ _
  · exact dictGet_dictPop d "__version__"

/-- C3 witness: at a concrete schema (one string field, version tag "0.5.0")
and payload, dump emits `__version__ ↦ "0.5.0"` and the stripped load input
carries no version key. -/
theorem c3_version_field_invariant_witness :
    dictGet (VersionedSchema.dump (fun s => [("name", s)]) "0.5.0" "marvin")
        "__version__" = some "0.5.0" ∧
    dictGet (VersionedSchema.remove_version
        [("__version__", "0.4.0"), ("name", "marvin")]) "__version__" = none :=
  ⟨(c3_version_field_invariant (fun s => [("name", s)]) "0.5.0" "marvin"
      (fun p => .ok p) [("__version__", "0.4.0"), ("name", "marvin")] rfl).1,
    (c3_version_field_invariant (fun s => [("name", s)]) "0.5.0" "marvin"
      (fun p => .ok p) [("__version__", "0.4.0"), ("name", "marvin")]
      rfl).2.2.2⟩

/-- C10 counterexample: with only tag "1" registered and a payload declaring
version "0", `load` raises the no-matching-version error before the pre-load
hook runs, and the payload still contains `__version__` afterwards — refuting
the unconditional claim that load always strips the key in place. -/
theorem c10_load_mutates_counterexample :
    dictGet (VersionedSchema.load [("S", [("1", 7)])] "S" 7
        (fun _ p => Except.ok p) [("__version__", "0"), ("x", "y")] true).2
      "__version__" = some "0" := by
  rfl

/-- C10 amended: `load` removes `__version__` from the mapping handed in by
the caller — in place — whenever version checking is off or version
resolution succeeds; a resolution failure raises before the pre-load hook, so
the mapping is then left untouched. -/
theorem c10_load_mutates_amended {α : Type} (reg : VersionsRegistry)
    (selfName : String) (selfId : SchemaId)
    (fieldLoadOf : SchemaId → Payload → Except SerErr α) (d : Payload)
    (cv : Bool)
    (h : cv = false ∨ ∃ s, get_versioned_schema reg selfName
      (VersionedSchema.versionArgOf d) = .ok s) :
    dictGet (VersionedSchema.load reg selfName selfId fieldLoadOf d cv).2
      "__version__" = none := by
  unfold VersionedSchema.load
  rcases h with h | ⟨s, hs⟩
  · subst h
    simpa [VersionedSchema.superLoad] using dictGet_dictPop d "__version__"
  · cases cv with
    | false => simpa [VersionedSchema.superLoad] using dictGet_dictPop d "__version__"
    | true =>
      simpa [hs, VersionedSchema.superLoad] using dictGet_dictPop d "__version__"

/-- C1 witness: the resolution facts at the concrete registry with schemas
1, 2 and 4 registered at tags "1", "2" and "4". -/
theorem c1_version_resolution_witness :
    get_versioned_schema [("S", [("1", 1), ("2", 2), ("4", 4)])] "S"
        (.tag "3") = .ok 2 ∧
    get_versioned_schema [("S", [("1", 1), ("2", 2), ("4", 4)])] "S"
        .maxVersion = .ok 4 :=
  ⟨(c1_version_resolution 1 2 4).1, (c1_version_resolution 1 2 4).2.2.2⟩

/-- C2: for every authenticated request whose first attempt returns HTTP 401,
the client refreshes the token exactly once and re-issues the identical
request exactly once; the second attempt's outcome is final — in particular a
200 second response is returned as the result and a second 401 propagates as
the transport error, with exactly one refresh in either case. -/
theorem c2_401_refresh_retry (t : String) (method : String)
    (stub : Nat → HttpResp) (refreshResp : Option String)
    (hm : method = "GET" ∨ method = "POST" ∨ method = "DELETE")
    (h401 : (stub 0).status = 401) :
    Client._request (.set (some t)) method stub refreshResp =
      ⟨Client.request_fn method stub 1, 2, 1, .set refreshResp⟩ ∧
    ((stub 1).status = 200 →
      (Client._request (.set (some t)) method stub refreshResp).result =
        .ok (stub 1)) ∧
    ((stub 1).status = 401 →
      (Client._request (.set (some t)) method stub refreshResp).result =
        .error (.httpError 401)) := by
  have hreq0 : Client.request_fn method stub 0 = .error (.httpError 401) := by
    unfold Client.request_fn raise_for_status
    rw [if_pos hm, h401, if_pos (by omega)]
  have hmain : Client._request (.set (some t)) method stub refreshResp =
      ⟨Client.request_fn method stub 1, 2, 1, .set refreshResp⟩ := by
    unfold Client._request
    rw [hreq0]
    rfl
  refine ⟨hmain, fun h200 => ?_, fun h401b => ?_⟩
  · rw [hmain]
    show Client.request_fn method stub 1 = .ok (stub 1)
    unfold Client.request_fn raise_for_status
    rw [if_pos hm, h200, if_neg (by omega)]
  · rw [hmain]
    show Client.request_fn method stub 1 = .error (.httpError 401)
    unfold Client.request_fn raise_for_status
    rw [if_pos hm, h401b, if_pos (by omega)]

/-- C2 witness: a stub answering 401 then 200 yields the 200 response with
exactly one refresh and two issues of the request. -/
theorem c2_401_refresh_retry_witness :
    Client._request (.set (some "tok")) "POST"
        (fun n => if n = 0 then ⟨401, ""⟩ else ⟨200, "ok"⟩) (some "tok2") =
      ⟨.ok ⟨200, "ok"⟩, 2, 1, .set (some "tok2")⟩ := by
  have h := c2_401_refresh_retry "tok" "POST"
    (fun n => if n = 0 then ⟨401, ""⟩ else ⟨200, "ok"⟩) (some "tok2")
    (Or.inr (Or.inl rfl)) rfl
  rw [h.1]
  have h2 := h.2.1 rfl
  rw [h.1] at h2
  simp only at h2
  rw [show Client.request_fn "POST"
      (fun n => if n = 0 then ⟨401, ""⟩ else ⟨200, "ok"⟩) 1 =
      .ok ⟨200, "ok"⟩ from h2]

/-- C4: heartbeat operations swallow server-reported errors: for every
response envelope carrying a data payload (in particular one whose heartbeat
mutation reports an error string such as "boom") and no GraphQL-level errors
key, both heartbeat calls return normally instead of raising. -/
theorem c4_heartbeat_swallows_errors (env : PyDict JVal) (d : JVal)
    (hne : dictGet env "errors" = none) (hd : dictGet env "data" = some d) :
    Client.update_flow_run_heartbeat env = .ok () ∧
    Client.update_task_run_heartbeat env = .ok () := by
  unfold Client.update_flow_run_heartbeat Client.update_task_run_heartbeat
    Client.graphql
  rw [hne, hd]
  exact ⟨rfl, rfl⟩

/-- C4 witness: stub envelopes whose heartbeat mutations report the error
"boom" leave both heartbeat calls returning normally. -/
theorem c4_heartbeat_swallows_errors_witness :
    Client.update_flow_run_heartbeat
        [("data", .obj [("updateFlowRunHeartbeat",
          .obj [("error", .str "boom")])])] = .ok () ∧
    Client.update_task_run_heartbeat
        [("data", .obj [("updateTaskRunHeartbeat",
          .obj [("error", .str "boom")])])] = .ok () :=
  ⟨(c4_heartbeat_swallows_errors
      [("data", .obj [("updateFlowRunHeartbeat", .obj [("error", .str "boom")])])]
      (.obj [("updateFlowRunHeartbeat", .obj [("error", .str "boom")])])
      rfl rfl).1,
    (c4_heartbeat_swallows_errors
      [("data", .obj [("updateTaskRunHeartbeat", .obj [("error", .str "boom")])])]
      (.obj [("updateTaskRunHeartbeat", .obj [("error", .str "boom")])])
      rfl rfl).2⟩

/-- C5 (code bug evaluation): `logout` deletes the on-disk token file and
removes the in-memory token attribute itself; a later request with the
attribute gone fails with `AttributeError` — not the `AuthorizationError`
the claim and the source docstrings describe — though still with zero
network calls; a request with the token present but `None` does fail with
`AuthorizationError` and zero network calls. -/
theorem c5_missing_token_code_bug :
    Client.logout ⟨.set (some "tok"), some "tok"⟩ = .ok ⟨.absent, none⟩ ∧
    Client._request .absent "POST" (fun _ => ⟨200, "ok"⟩) none =
      ⟨.error .attributeError, 0, 0, .absent⟩ ∧
    Client._request (.set none) "POST" (fun _ => ⟨200, "ok"⟩) none =
      ⟨.error (.authorizationError
        "Call Client.login() to set the client token."), 0, 0, .set none⟩ :=
  ⟨rfl, rfl, rfl⟩

/-- C6 counterexample: an envelope whose `errors` key holds an *empty* list —
so it does not "contain a non-empty errors list" — still raises
`ClientError`, because the source tests key presence (`"errors" in result`),
not non-emptiness; the claimed iff would require the data field to be
returned here. -/
theorem c6_graphql_errors_counterexample :
    Client.graphql [("errors", .arr []), ("data", .null)] =
      .error (.clientError (.arr [])) ∧
    Client.graphql [("errors", .arr []), ("data", .null)] ≠ .ok .null :=
  ⟨rfl, fun h => Except.noConfusion
    (show (Except.error (ClientErr.clientError (.arr [])) :
      Except ClientErr JVal) = .ok .null from h)⟩

/-- C6 amended: `graphql` raises `ClientError` carrying the envelope's
errors value verbatim exactly when the envelope contains an `errors` key —
whatever its value, including an empty list — and otherwise returns the
envelope's `data` field. -/
theorem c6_graphql_errors_amended (env : PyDict JVal) :
    (∀ e, dictGet env "errors" = some e →
      Client.graphql env = .error (.clientError e)) ∧
    (∀ e, Client.graphql env = .error (.clientError e) →
      dictGet env "errors" = some e) ∧
    (∀ d, dictGet env "errors" = none → dictGet env "data" = some d →
      Client.graphql env = .ok d) := by
  refine ⟨fun e he => ?_, fun e he => ?_, fun d hne hd => ?_⟩
  · unfold Client.graphql
    rw [he]
  · unfold Client.graphql at he
    cases hx : dictGet env "errors" with
    | some x =>
      rw [hx] at he
      injection he with h'
      injection h' with h''
      rw [h'']
    | none =>
      rw [hx] at he
      cases hd : dictGet env "data" with
      | some d =>
        rw [hd] at he
        exact Except.noConfusion he
      | none =>
        rw [hd] at he
        injection he with h'
        exact ClientErr.noConfusion h'
  · unfold Client.graphql
    rw [hne, hd]

/-- C6 witness: an envelope with a non-empty errors value raises
`ClientError` carrying it verbatim, and an error-free envelope returns its
data field. -/
theorem c6_graphql_errors_amended_witness :
    Client.graphql [("errors", .arr [.str "boom"])] =
      .error (.clientError (.arr [.str "boom"])) ∧
    Client.graphql [("data", .num 5)] = .ok (.num 5) :=
  ⟨(c6_graphql_errors_amended [("errors", .arr [.str "boom"])]).1 _ rfl,
    (c6_graphql_errors_amended [("data", .num 5)]).2.2 _ rfl rfl⟩

/-- C10 witness: at a registry holding tag "1" and a payload declaring
version "1", resolution succeeds and the mapping handed in by the caller
lacks `__version__` after the call. -/
theorem c10_load_mutates_witness :
    dictGet (VersionedSchema.load [("S", [("1", 7)])] "S" 7
        (fun _ p => Except.ok p) [("__version__", "1"), ("x", "y")] true).2
      "__version__" = none :=
  c10_load_mutates_amended [("S", [("1", 7)])] "S" 7 (fun _ p => Except.ok p)
    [("__version__", "1"), ("x", "y")] true (Or.inr ⟨7, rfl⟩)

/-- C7 counterexample: a stub answering the `getOrCreateTaskRun` mutation
with a null result makes `get_task_run_info` fail with `AttributeError`
(the source reads `.error` off `None`), not with a `ClientError` naming the
missing identifier as the claim requires. -/
theorem c7_not_found_counterexample :
    Client.get_task_run_info "tid-123" (fun v => v)
        [("data", .obj [("getOrCreateTaskRun", .null)])] =
      .error .attributeError ∧
    ∀ msg, Client.get_task_run_info "tid-123" (fun v => v)
        [("data", .obj [("getOrCreateTaskRun", .null)])] ≠
      .error (.clientError msg) :=
  ⟨rfl, fun msg h => by
    have h2 : (Except.error ClientErr.attributeError :
        Except ClientErr (TaskRunInfoResult JVal)) = .error (.clientError msg) := h
    injection h2 with h3
    exact ClientErr.noConfusion h3⟩

/-- C7 amended: `get_flow_run_info` rejects a null `flow_run_by_pk` result
with a `ClientError` whose message names the missing flow-run id;
`get_task_run_info` raises `ClientError` carrying the server-supplied
`error` value verbatim when that value is truthy (a message that need not
name the identifier), while a null `getOrCreateTaskRun` result raises
`AttributeError` instead of a `ClientError`. -/
theorem c7_not_found_amended {σ τ : Type} (fid tid : String)
    (deser : JVal → σ) (pt : JVal → τ) (env : PyDict JVal) (d : JVal) :
    (dictGet env "errors" = none → dictGet env "data" = some d →
      getAttr d "flow_run_by_pk" = .ok .null →
      Client.get_flow_run_info fid deser pt env =
        .error (.clientError
          (.str ("Flow run ID not found: \"" ++ fid ++ "\"")))) ∧
    (∀ gct errVal, dictGet env "errors" = none → dictGet env "data" = some d →
      getAttr d "getOrCreateTaskRun" = .ok gct →
      getAttr gct "error" = .ok errVal → errVal.truthy = true →
      Client.get_task_run_info tid deser env = .error (.clientError errVal)) ∧
    (dictGet env "errors" = none → dictGet env "data" = some d →
      getAttr d "getOrCreateTaskRun" = .ok .null →
      Client.get_task_run_info tid deser env = .error .attributeError) := by
  refine ⟨fun hne hd hfr => ?_, fun gct errVal hne hd hg hge htr => ?_,
    fun hne hd hg => ?_⟩
  · unfold Client.get_flow_run_info Client.graphql
    simp only [hne, hd, hfr]
  · unfold Client.get_task_run_info Client.graphql
    simp only [hne, hd, hg, hge, htr, if_true]
  · unfold Client.get_task_run_info Client.graphql
    simp only [hne, hd, hg]
    rfl

/-- C7 witness: a null `flow_run_by_pk` for id "nonexistent-id" yields the
`ClientError` naming that id, and a truthy `getOrCreateTaskRun.error` of
"boom" yields a `ClientError` carrying exactly "boom". -/
theorem c7_not_found_amended_witness :
    Client.get_flow_run_info "nonexistent-id" (fun v => v) (fun v => v)
        [("data", .obj [("flow_run_by_pk", .null)])] =
      .error (.clientError
        (.str "Flow run ID not found: \"nonexistent-id\"")) ∧
    Client.get_task_run_info "tid-9" (fun v => v)
        [("data", .obj [("getOrCreateTaskRun",
          .obj [("error", .str "boom"), ("task_run", .null)])])] =
      .error (.clientError (.str "boom")) :=
  ⟨(c7_not_found_amended "nonexistent-id" "tid-0" (fun v => v) (fun v => v)
      [("data", .obj [("flow_run_by_pk", .null)])]
      (.obj [("flow_run_by_pk", .null)])).1 rfl rfl rfl,
    (c7_not_found_amended "fid-0" "tid-9" (fun v => v) (fun v => v)
      [("data", .obj [("getOrCreateTaskRun",
        .obj [("error", .str "boom"), ("task_run", .null)])])]
      (.obj [("getOrCreateTaskRun",
        .obj [("error", .str "boom"), ("task_run", .null)])])).2.1
      (.obj [("error", .str "boom"), ("task_run", .null)]) (.str "boom")
      rfl rfl rfl rfl rfl⟩

/-- C8 counterexample: with `reject_invalid=False`, serializing a function
outside the allow-list does *not* raise a validation error as the claim
states — the source short-circuits the allow-list check on
`reject_invalid` — and instead returns the function's qualified name. -/
theorem c8_reject_invalid_counterexample :
    FunctionReference.serialize (mkFunctionReference [⟨1, "mod.f1"⟩] false false)
        (some ⟨2, "mod.f2"⟩) = .ok (some "mod.f2") ∧
    FunctionReference.serialize (mkFunctionReference [⟨1, "mod.f1"⟩] false false)
        (some ⟨2, "mod.f2"⟩) ≠
      .error (.validationError "Invalid function reference") :=
  ⟨rfl, fun h => by
    have h2 : (Except.ok (some "mod.f2") : Except SerErr (Option String)) =
        .error (.validationError "Invalid function reference") := h
    exact Except.noConfusion h2⟩

/-- C8 amended: with `reject_invalid=False`, serialize applies no allow-list
check — every function value serializes to its qualified name — and
deserialize passes a qualified-name string outside the allow-list through
unresolved, returning the string itself. -/
theorem c8_reject_invalid_amended (fr : FunctionReference)
    (hr : fr.reject_invalid = false) (f : PyFunc) (s : String)
    (hs : dictGet fr.valid_functions s = none) :
    FunctionReference.serialize fr (some f) =
      .ok (some (to_qualified_name f)) ∧
    FunctionReference.deserialize fr (some s) =
      .ok (some (Sum.inr s)) := by
  constructor
  · unfold FunctionReference.serialize
    simp [hr]
  · unfold FunctionReference.deserialize FunctionReference.notInKeys
    simp [hr, hs]

/-- C8 witness: with allow-list {mod.f1} and `reject_invalid=False`, the
unlisted function mod.f2 serializes to its qualified name and the unknown
name mod.unknown deserializes to itself unresolved. -/
theorem c8_reject_invalid_amended_witness :
    FunctionReference.serialize (mkFunctionReference [⟨1, "mod.f1"⟩] false false)
        (some ⟨2, "mod.f2"⟩) = .ok (some "mod.f2") ∧
    FunctionReference.deserialize (mkFunctionReference [⟨1, "mod.f1"⟩] false false)
        (some "mod.unknown") = .ok (some (Sum.inr "mod.unknown")) :=
  c8_reject_invalid_amended (mkFunctionReference [⟨1, "mod.f1"⟩] false false)
    rfl ⟨2, "mod.f2"⟩ "mod.unknown" rfl

/-! ## Base64 round-trip lemmas -/

theorem sextetVal_sextetChar : ∀ n, n < 64 → sextetVal (sextetChar n) = some n := by
  decide

theorem sextetChar_ne_pad : ∀ n, n < 64 → sextetChar n ≠ '=' := by
  decide

theorem b64decode_b64encode :
    ∀ l : List Nat, (∀ x ∈ l, x < 256) → b64decode (b64encode l) = some l := by
  intro l
  induction l using b64encode.induct with
  | case1 a b c rest ih =>
    intro hl
    have ha : a < 256 := hl a (by simp)
    have hb : b < 256 := hl b (by simp)
    have hc : c < 256 := hl c (by simp)
    have ihr := ih (fun x hx => hl x (by simp [hx]))
    simp only [b64encode, b64decode,
      sextetVal_sextetChar (a / 4) (by omega),
      sextetVal_sextetChar ((a % 4) * 16 + b / 16) (by omega),
      sextetVal_sextetChar ((b % 16) * 4 + c / 64) (by omega),
      sextetVal_sextetChar (c % 64) (by omega), ihr]
    rw [if_neg (fun h => sextetChar_ne_pad ((b % 16) * 4 + c / 64) (by omega) h.1)]
    rw [if_neg (fun h => sextetChar_ne_pad (c % 64) (by omega) h.1)]
    have e1 : a / 4 * 4 + ((a % 4) * 16 + b / 16) / 16 = a := by omega
    have e2 : ((a % 4) * 16 + b / 16) % 16 * 16 + ((b % 16) * 4 + c / 64) / 4 = b := by
      omega
    have e3 : ((b % 16) * 4 + c / 64) % 4 * 64 + c % 64 = c := by omega
    rw [e1, e2, e3]
  | case2 a b =>
    intro hl
    have ha : a < 256 := hl a (by simp)
    have hb : b < 256 := hl b (by simp)
    simp only [b64encode, b64decode,
      sextetVal_sextetChar (a / 4) (by omega),
      sextetVal_sextetChar ((a % 4) * 16 + b / 16) (by omega),
      sextetVal_sextetChar ((b % 16) * 4) (by omega)]
    rw [if_neg (fun h => sextetChar_ne_pad ((b % 16) * 4) (by omega) h.1)]
    rw [if_pos (by simp)]
    have e1 : a / 4 * 4 + ((a % 4) * 16 + b / 16) / 16 = a := by omega
    have e2 : ((a % 4) * 16 + b / 16) % 16 * 16 + (b % 16) * 4 / 4 = b := by omega
    rw [e1, e2]
  | case3 a =>
    intro hl
    have ha : a < 256 := hl a (by simp)
    simp only [b64encode, b64decode,
      sextetVal_sextetChar (a / 4) (by omega),
      sextetVal_sextetChar ((a % 4) * 16) (by omega)]
    rw [if_pos (by simp)]
    have e1 : a / 4 * 4 + (a % 4) * 16 / 16 = a := by omega
    rw [e1]
  | case4 =>
    intro
    rfl

/-- C9: the Bytes field round-trips every byte sequence — serialize encodes
the bytes as base64 text and deserialize decodes that text back to the
original bytes. -/
theorem c9_bytes_roundtrip (b : List Nat) (hb : ∀ x ∈ b, x < 256) :
    Bytes.deserialize (Bytes.serialize (some b)) = .ok (some b) := by
  simp only [Bytes.serialize, Bytes.deserialize, b64decode_b64encode b hb]

/-- C9 witness: the bytes 0x00 0xff round-trip through the Bytes field. -/
theorem c9_bytes_roundtrip_witness :
    Bytes.deserialize (Bytes.serialize (some [0, 255])) = .ok (some [0, 255]) :=
  c9_bytes_roundtrip [0, 255] (by decide)
